import Mathlib

/-!
# Verification of the hough-server protocol/server engine

Shallow embedding of `hough_server` (files `protocol.py`, `server.py`,
`cpu_worker.py`) and proofs about the claims of its specification.

Modelling conventions:
* JSON payloads are modelled by the inductive `JValue` (the requests of this
  protocol carry only strings, integers, objects and arrays).
* Machine integers of the Python code are modelled by `Int` (Python integers
  are unbounded); byte blobs by `List Nat`.
* Pixel coordinates of a detected circle are modelled by `Int` (the scikit
  peak extraction returns integer array indices and radii drawn from an
  integer range).
* The per-connection loop `handle_client` is modelled as a function over a
  list of read events (`InEvent`): a received frame, or an idle-read timeout.
  End of the event list models the peer closing the connection.  A frame event
  carries its raw bytes and, when its payload parses as a JSON object, the
  parsed object (`recv_json` either returns a parsed dict or raises).
* The process-pool dispatch is modelled by an oracle `detect` giving each
  submitted task's outcome (`.ok` result or `.error` for a raised exception).
  The code collects results by walking the futures in submission order
  (`zip(roi_reqs, futures)`), so the response is a function of the per-item
  outcomes only: completion order cannot appear in it, and the model reflects
  that.
* The elapsed-time measurement is modelled by an opaque parameter `ms`.
* The server's shutdown flag is not modelled (we model executions in which no
  shutdown is requested), and neither are transport faults while *sending*.
-/

namespace hough_server

/-- JSON values, as decoded by `recv_json` (`json.loads`).  The numeric
payloads of this protocol are integers, so only integer numbers are
modelled. -/
inductive JValue where
  | null : JValue
  | bool (b : Bool) : JValue
  | int (n : Int) : JValue
  | str (s : String) : JValue
  | arr (xs : List JValue) : JValue
  | obj (fields : List (String × JValue)) : JValue

/-- `ROISpec` (protocol.py): one region-of-interest description from the
request header. -/
structure ROISpec where
  id : String
  height : Int
  width : Int
  num_bytes : Int
  min_radius_px : Int
  max_radius_px : Int
deriving Repr, DecidableEq

/-- `DetectParams` (protocol.py): the Canny thresholds shared by a batch. -/
structure DetectParams where
  canny_low : Int
  canny_high : Int
deriving Repr, DecidableEq

/-- `DetectRequest` (protocol.py): a validated request header.  The constant
`type: Literal["detect"]` field is not stored (it carries no information). -/
structure DetectRequest where
  params : DetectParams
  roi_specs : List ROISpec
deriving Repr, DecidableEq

/-- `Circle` (protocol.py).  Pixel coordinates, modelled as integers. -/
structure Circle where
  x : Int
  y : Int
  r : Int
deriving Repr, DecidableEq

/-- `ROIResult` (protocol.py): per-item outcome in a response. -/
structure ROIResult where
  id : String
  circle : Option Circle
  error : Option String
deriving Repr, DecidableEq

/-- `DetectResponse` (protocol.py).  The constant `type` field is not stored;
`ms` is modelled as `Option Nat` (only its presence matters to the spec). -/
structure DetectResponse where
  ok : Bool
  results : List ROIResult
  ms : Option Nat
  error : Option String
deriving Repr, DecidableEq

/-- Dictionary lookup on a decoded JSON object (Python `dict` access during
pydantic validation). -/
def getField : List (String × JValue) → String → Option JValue
  | [], _ => none
  | (k, v) :: fs, key => if k = key then some v else getField fs key

/-- Pydantic: interpret a looked-up field as a required `int`. -/
def intOf (k : String) : Option JValue → Except String Int
  | some (JValue.int n) => Except.ok n
  | some _ => Except.error (k ++ ": Input should be a valid integer")
  | none => Except.error (k ++ ": Field required")

/-- Pydantic: interpret a looked-up field as a required `str`. -/
def strOf (k : String) : Option JValue → Except String String
  | some (JValue.str s) => Except.ok s
  | some _ => Except.error (k ++ ": Input should be a valid string")
  | none => Except.error (k ++ ": Field required")

/-- Pydantic: a required field of any JSON type. -/
def fieldOf (k : String) : Option JValue → Except String JValue
  | some v => Except.ok v
  | none => Except.error (k ++ ": Field required")

/-- Pydantic: a field that must be a JSON array. -/
def arrOf (k : String) : JValue → Except String (List JValue)
  | JValue.arr xs => Except.ok xs
  | _ => Except.error (k ++ ": Input should be a valid list")

/-- Pydantic: a required `int` field of an object. -/
def getInt (fs : List (String × JValue)) (k : String) : Except String Int :=
  intOf k (getField fs k)

/-- Pydantic: a required `str` field of an object. -/
def getStr (fs : List (String × JValue)) (k : String) : Except String String :=
  strOf k (getField fs k)

/-- Pydantic validation of `DetectParams`: `canny_low`/`canny_high` are
required integers with `ge=0, le=255`. -/
def DetectParams.model_validate : JValue → Except String DetectParams
  | JValue.obj fs =>
    (getInt fs "canny_low").bind fun lo =>
    if lo < 0 then Except.error "canny_low: Input should be greater than or equal to 0"
    else if 255 < lo then Except.error "canny_low: Input should be less than or equal to 255"
    else
      (getInt fs "canny_high").bind fun hi =>
      if hi < 0 then Except.error "canny_high: Input should be greater than or equal to 0"
      else if 255 < hi then Except.error "canny_high: Input should be less than or equal to 255"
      else Except.ok ⟨lo, hi⟩
  | _ => Except.error "params: Input should be an object"

/-- Pydantic validation of `ROISpec`: `id` is a required string; `height`,
`width`, `num_bytes`, `min_radius_px`, `max_radius_px` are required integers
with `gt=0`; the field validator `_radii_ok` rejects
`max_radius_px <= min_radius_px`.  Fields are validated in definition order;
this model reports the first failure. -/
def ROISpec.model_validate : JValue → Except String ROISpec
  | JValue.obj fs =>
    (getStr fs "id").bind fun id =>
    (getInt fs "height").bind fun h =>
    if h ≤ 0 then Except.error "height: Input should be greater than 0"
    else
      (getInt fs "width").bind fun w =>
      if w ≤ 0 then Except.error "width: Input should be greater than 0"
      else
        (getInt fs "num_bytes").bind fun nb =>
        if nb ≤ 0 then Except.error "num_bytes: Input should be greater than 0"
        else
          (getInt fs "min_radius_px").bind fun mn =>
          if mn ≤ 0 then Except.error "min_radius_px: Input should be greater than 0"
          else
            (getInt fs "max_radius_px").bind fun mx =>
            if mx ≤ 0 then Except.error "max_radius_px: Input should be greater than 0"
            else if mx ≤ mn then Except.error "max_radius_px must be > min_radius_px"
            else Except.ok ⟨id, h, w, nb, mn, mx⟩
  | _ => Except.error "roi spec: Input should be an object"

/-- Pydantic: the `type: Literal["detect"] = "detect"` field — absent is fine
(the default applies), present must equal `"detect"`. -/
def typeOk : Option JValue → Except String Unit
  | none => Except.ok ()
  | some (JValue.str "detect") => Except.ok ()
  | some _ => Except.error "type: Input should be detect"

/-- Elementwise validation of the `roi_specs` array. -/
def ROISpec.validateList : List JValue → Except String (List ROISpec)
  | [] => Except.ok []
  | j :: js =>
    (ROISpec.model_validate j).bind fun s =>
    (ROISpec.validateList js).bind fun ss =>
    Except.ok (s :: ss)

/-- `DetectRequest.model_validate` (server.py line 100 / protocol.py):
the header object must carry valid `params`, and a `roi_specs` list with
`min_length=1` whose items each validate as `ROISpec`. -/
def DetectRequest.model_validate : JValue → Except String DetectRequest
  | JValue.obj fs =>
    (typeOk (getField fs "type")).bind fun _ =>
    (fieldOf "params" (getField fs "params")).bind fun pj =>
    (DetectParams.model_validate pj).bind fun params =>
    (fieldOf "roi_specs" (getField fs "roi_specs")).bind fun rj =>
    (arrOf "roi_specs" rj).bind fun items =>
    if items.isEmpty then Except.error "roi_specs: List should have at least 1 item"
    else
      (ROISpec.validateList items).bind fun specs =>
      Except.ok ⟨params, specs⟩
  | _ => Except.error "Input should be an object"

/-- `DetectParams.model_dump`: pydantic serialization, fields in definition
order. -/
def DetectParams.model_dump (p : DetectParams) : JValue :=
  JValue.obj [("canny_low", JValue.int p.canny_low),
              ("canny_high", JValue.int p.canny_high)]

/-- `ROISpec.model_dump`: pydantic serialization, fields in definition
order. -/
def ROISpec.model_dump (s : ROISpec) : JValue :=
  JValue.obj [("id", JValue.str s.id),
              ("height", JValue.int s.height),
              ("width", JValue.int s.width),
              ("num_bytes", JValue.int s.num_bytes),
              ("min_radius_px", JValue.int s.min_radius_px),
              ("max_radius_px", JValue.int s.max_radius_px)]

/-- `DetectRequest.model_dump`: pydantic serialization, fields in definition
order (`type`, `params`, `roi_specs`). -/
def DetectRequest.model_dump (r : DetectRequest) : JValue :=
  JValue.obj [("type", JValue.str "detect"),
              ("params", r.params.model_dump),
              ("roi_specs", JValue.arr (r.roi_specs.map ROISpec.model_dump))]

/-- The constraints pydantic places on `DetectParams` fields. -/
def DetectParams.validB (p : DetectParams) : Bool :=
  decide (0 ≤ p.canny_low) && decide (p.canny_low ≤ 255) &&
  decide (0 ≤ p.canny_high) && decide (p.canny_high ≤ 255)

/-- The constraints pydantic places on `ROISpec` fields. -/
def ROISpec.validB (s : ROISpec) : Bool :=
  decide (0 < s.height) && decide (0 < s.width) && decide (0 < s.num_bytes) &&
  decide (0 < s.min_radius_px) && decide (0 < s.max_radius_px) &&
  decide (s.min_radius_px < s.max_radius_px)

/-- The constraints pydantic places on a whole `DetectRequest`. -/
def DetectRequest.validB (r : DetectRequest) : Bool :=
  r.params.validB && !r.roi_specs.isEmpty && r.roi_specs.all ROISpec.validB

/-! ## Wire framing (`protocol.py`: `LEN`, `send_msg`, `recv_msg`) -/

/-- `LEN.pack`: 8-byte big-endian unsigned encoding of a length. -/
def LEN_pack (n : Nat) : List Nat :=
  [n / 2 ^ 56 % 256, n / 2 ^ 48 % 256, n / 2 ^ 40 % 256, n / 2 ^ 32 % 256,
   n / 2 ^ 24 % 256, n / 2 ^ 16 % 256, n / 2 ^ 8 % 256, n % 256]

/-- `LEN.unpack`: big-endian decoding of 8 bytes. -/
def LEN_unpack (bs : List Nat) : Nat :=
  bs.foldl (fun acc b => acc * 256 + b) 0

/-- `send_msg`: a frame is the 8-byte length prefix followed by the payload. -/
def send_msg (payload : List Nat) : List Nat :=
  LEN_pack payload.length ++ payload

/-- `recv_msg` over a byte stream: read the 8-byte prefix, then exactly that
many payload bytes; `none` models `recv_exact` raising `ConnectionError`
because the stream ended early.  Returns the payload and the rest of the
stream. -/
def recv_msg (stream : List Nat) : Option (List Nat × List Nat) :=
  if stream.length < 8 then none
  else
    let n := LEN_unpack (stream.take 8)
    let rest := stream.drop 8
    if rest.length < n then none else some (rest.take n, rest.drop n)

/-! ## Connection handler (`server.py`: `HoughServer.handle_client`) -/

/-- `ROIRequest` (protocol.py): an ROI spec's id and radius bounds together
with the decoded pixel buffer (kept flat; the `reshape` to height×width is a
view of the same bytes). -/
structure ROIRequest where
  id : String
  roi : List Nat
  min_radius_px : Int
  max_radius_px : Int
deriving Repr, DecidableEq

/-- One read attempt on a connection, as seen by `handle_client`:
* `frame raw parsed` — a frame arrived; `raw` is its payload, `parsed` is
  `some v` when the payload parses as a JSON object (used by `recv_json`),
  `none` otherwise;
* `timeout` — the 30-second idle-read timeout expired (`socket.timeout`).
The end of the event list models the peer having closed the connection
(`recv_exact` raises `ConnectionError`). -/
inductive InEvent where
  | frame (raw : List Nat) (parsed : Option JValue) : InEvent
  | timeout : InEvent

/-- The outcome of one detection task: `.ok` with the worker's return value,
`.error` when the task raised (the string is the exception's `repr`). -/
abbrev DetectFn : Type :=
  List Nat → Int → Int → Int → Int → Except String (Option Circle)

/-- The body-frame reading loop of `handle_client` (server.py lines 106-127):
one `recv_msg` per ROI spec, checking the frame length against the spec's
`num_bytes` and the decoded pixel count against `height*width`.  Any raised
exception (mismatch `ValueError`, `socket.timeout`, `ConnectionError` at end
of events) aborts the loop; the result carries the events not yet consumed.
`consBody` prepends one decoded frame to the rest of the loop's outcome
(`roi_reqs.append(...)`), letting a failure further down pass through. -/
def consBody (spec : ROISpec) (raw : List Nat) :
    Except String (List ROIRequest) × List InEvent →
      Except String (List ROIRequest) × List InEvent
  | (Except.ok rois, rest) =>
    (Except.ok (⟨spec.id, raw, spec.min_radius_px, spec.max_radius_px⟩ :: rois), rest)
  | (Except.error e, rest) => (Except.error e, rest)

/-- The body-frame reading loop of `handle_client` (server.py lines 106-127);
see `consBody`. -/
def readBodies : List ROISpec → List InEvent → Except String (List ROIRequest) × List InEvent
  | [], evs => (Except.ok [], evs)
  | _ :: _, [] => (Except.error "ConnectionError: Socket closed mid-read", [])
  | _ :: _, InEvent.timeout :: evs => (Except.error "TimeoutError: timed out", evs)
  | spec :: specs, InEvent.frame raw _ :: evs =>
    if (raw.length : Int) ≠ spec.num_bytes then
      (Except.error ("ROI bytes mismatch for roi_id=" ++ spec.id ++ ": expected " ++
        toString spec.num_bytes ++ ", got " ++ toString raw.length), evs)
    else if (raw.length : Int) ≠ spec.height * spec.width then
      (Except.error ("ROI size mismatch for roi_id=" ++ spec.id ++ ": " ++
        toString raw.length ++ " != " ++ toString (spec.height * spec.width)), evs)
    else
      consBody spec raw (readBodies specs evs)

/-- The collection step for one item (server.py lines 149-154): `future.result()`
either returns the worker's value or re-raises the task's exception, which is
caught and stored in that item's error field. -/
def collectItem (detect : DetectFn) (params : DetectParams) (r : ROIRequest) : ROIResult :=
  match detect r.roi r.min_radius_px r.max_radius_px params.canny_low params.canny_high with
  | Except.ok c => ⟨r.id, c, none⟩
  | Except.error e => ⟨r.id, none, some e⟩

/-- `HoughServer.handle_client` (server.py lines 91-158), as the list of
responses written to the connection for a given list of read events.
`fuel` bounds the number of loop iterations (each iteration consumes at
least one event, so `events.length + 1` fuel is always enough).

Per iteration: `recv_json` (a timeout, end of events, or a frame that does
not parse as a JSON object breaks the loop — the client is dropped with no
response); then `DetectRequest.model_validate` (failure sends a
`Bad request` response and continues); then the body-frame loop (failure
sends an `ROI decode failed` response and continues); then dispatch and
in-order collection, and an `ok=true` response. -/
def handle_client (detect : DetectFn) (ms : Nat) : Nat → List InEvent → List DetectResponse
  | 0, _ => []
  | _ + 1, [] => []
  | _ + 1, InEvent.timeout :: _ => []
  | _ + 1, InEvent.frame _ none :: _ => []
  | fuel + 1, InEvent.frame _ (some v) :: evs =>
    match DetectRequest.model_validate v with
    | Except.error e =>
      ⟨false, [], none, some ("Bad request: " ++ e)⟩ :: handle_client detect ms fuel evs
    | Except.ok req =>
      match readBodies req.roi_specs evs with
      | (Except.error e, rest) =>
        ⟨false, [], none, some ("ROI decode failed: " ++ e)⟩ :: handle_client detect ms fuel rest
      | (Except.ok rois, rest) =>
        ⟨true, rois.map (collectItem detect req.params), some ms, none⟩ ::
          handle_client detect ms fuel rest

/-! ## Detection worker (`cpu_worker.py`: `detect_one_circle_scikit`) -/

/-- Python's `zip(..., strict=False)` over four lists: truncates to the
shortest. -/
def zip4 {α β γ δ : Type} : List α → List β → List γ → List δ → List (α × β × γ × δ)
  | a :: as, b :: bs, c :: cs, d :: ds => (a, b, c, d) :: zip4 as bs cs ds
  | _, _, _, _ => []

/-- `detect_one_circle_scikit` (cpu_worker.py).  The Canny edge extraction
and the Hough transform are external library calls (OpenCV, scikit-image);
they are modelled by their outputs: the four arrays returned by
`hough_circle_peaks` (called with `total_num_peaks=1`), taken here as opaque
inputs.  The function zips them into candidate circles and returns the
candidate only when exactly one was produced; otherwise `None`.  It is total:
no input yields an error. -/
def detect_one_circle_scikit (accums center_x_coords center_y_coords radii : List Int) :
    Option Circle :=
  let detected_circles_px :=
    (zip4 accums center_x_coords center_y_coords radii).map
      (fun p => Circle.mk p.2.1 p.2.2.1 p.2.2.2)
  if detected_circles_px.length ≠ 1 then none
  else detected_circles_px.head?

/-! ## Concrete fixtures used by witnesses and counterexamples -/

/-- A well-formed 2×2 ROI spec: `num_bytes = height*width = 4`, radii 1 < 5. -/
def sampleSpec : ROISpec := ⟨"a", 2, 2, 4, 1, 5⟩

/-- A spec whose declared byte length disagrees with its dimensions:
`num_bytes = 3` but `height*width = 4`.  All pydantic field constraints hold. -/
def sampleSpecMismatch : ROISpec := ⟨"a", 2, 2, 3, 1, 5⟩

/-- Canny thresholds 50/150, both within `[0, 255]`. -/
def sampleParams : DetectParams := ⟨50, 150⟩

/-- A valid single-item request. -/
def sampleRequest : DetectRequest := ⟨sampleParams, [sampleSpec]⟩

/-- A request whose only spec has `num_bytes ≠ height*width`. -/
def sampleRequestMismatch : DetectRequest := ⟨sampleParams, [sampleSpecMismatch]⟩

/-- A detection oracle whose tasks all return "no confident match". -/
def sampleDetect : DetectFn := fun _ _ _ _ _ => Except.ok none

/-- A detection oracle whose tasks all raise. -/
def sampleDetectErr : DetectFn := fun _ _ _ _ _ => Except.error "RuntimeError: boom"

/-- A header whose `roi_specs` list is empty (rejected by `min_length=1`). -/
def emptySpecsHeader : JValue := DetectRequest.model_dump ⟨sampleParams, []⟩

/-! ## Helper lemmas -/

/-- `Except.bind` on a success. -/
theorem bind_ok {α β : Type} (a : α) (f : α → Except String β) :
    (Except.ok a : Except String α).bind f = f a := rfl

/-- Inversion of a successful `Except.bind`. -/
theorem bind_eq_ok {α β : Type} {x : Except String α} {f : α → Except String β} {b : β}
    (h : x.bind f = Except.ok b) : ∃ a, x = Except.ok a ∧ f a = Except.ok b := by
  cases x with
  | ok a => exact ⟨a, rfl, h⟩
  | error e => simp [Except.bind] at h

/-- Re-validating a dumped `DetectParams` succeeds when its constraints hold. -/
theorem DetectParams.validate_dump_params (p : DetectParams) (h : p.validB = true) :
    DetectParams.model_validate p.model_dump = Except.ok p := by
  simp only [DetectParams.validB, Bool.and_eq_true, decide_eq_true_eq] at h
  obtain ⟨⟨⟨h1, h2⟩, h3⟩, h4⟩ := h
  simp [DetectParams.model_validate, DetectParams.model_dump, getInt, getField, intOf, bind_ok]
  rw [if_neg (by omega), if_neg (by omega), if_neg (by omega), if_neg (by omega)]

/-- Re-validating a dumped `ROISpec` succeeds when its constraints hold. -/
theorem ROISpec.validate_dump_spec (s : ROISpec) (h : s.validB = true) :
    ROISpec.model_validate s.model_dump = Except.ok s := by
  simp only [ROISpec.validB, Bool.and_eq_true, decide_eq_true_eq] at h
  obtain ⟨⟨⟨⟨⟨h1, h2⟩, h3⟩, h4⟩, h5⟩, h6⟩ := h
  simp [ROISpec.model_validate, ROISpec.model_dump, getInt, getStr, getField, intOf, strOf,
    bind_ok]
  rw [if_neg (by omega), if_neg (by omega), if_neg (by omega), if_neg (by omega),
    if_neg (by omega), if_neg (by omega)]

/-- Re-validating a dumped spec list succeeds elementwise. -/
theorem ROISpec.validateList_dump (l : List ROISpec) (h : ∀ s ∈ l, s.validB = true) :
    ROISpec.validateList (l.map ROISpec.model_dump) = Except.ok l := by
  induction l with
  | nil => rfl
  | cons s ss ih =>
    have hs : s.validB = true := h s (List.mem_cons_self s ss)
    have hss : ∀ x ∈ ss, x.validB = true := fun x hx => h x (List.mem_cons_of_mem s hx)
    simp [ROISpec.validateList, ROISpec.validate_dump_spec s hs, ih hss, bind_ok]

/-- Re-validating a dumped `DetectRequest` succeeds when its constraints hold. -/
theorem DetectRequest.validate_dump_request (r : DetectRequest) (h : r.validB = true) :
    DetectRequest.model_validate r.model_dump = Except.ok r := by
  simp only [DetectRequest.validB, Bool.and_eq_true, List.all_eq_true] at h
  obtain ⟨⟨hp, hne⟩, hall⟩ := h
  simp [DetectRequest.model_validate, DetectRequest.model_dump, getField, typeOk, fieldOf,
    arrOf, bind_ok, DetectParams.validate_dump_params r.params hp,
    ROISpec.validateList_dump r.roi_specs hall]
  simpa using hne

/-- Big-endian 8-byte length encoding decodes to the encoded value. -/
theorem LEN_unpack_pack (n : Nat) (h : n < 2 ^ 64) : LEN_unpack (LEN_pack n) = n := by
  simp only [LEN_pack, LEN_unpack, List.foldl]
  omega

/-- Reading a frame from a stream that starts with a sent frame returns the
frame's payload and leaves the rest of the stream in place. -/
theorem recv_msg_send_msg (payload rest : List Nat) (h : payload.length < 2 ^ 64) :
    recv_msg (send_msg payload ++ rest) = some (payload, rest) := by
  unfold recv_msg send_msg
  have hlen : (LEN_pack payload.length).length = 8 := rfl
  rw [List.append_assoc]
  rw [if_neg (by simp [hlen])]
  simp only [List.take_left' hlen, List.drop_left' hlen, LEN_unpack_pack payload.length h]
  rw [if_neg (by simp)]
  simp [List.take_left' rfl, List.drop_left' rfl]

/-- The wire events carrying a batch's binary body frames. -/
def bodyFrames (bodies : List (List Nat)) : List InEvent :=
  bodies.map (fun b => InEvent.frame b none)

/-- The body blobs of a batch agree with its specs: each frame's length equals
the spec's `num_bytes` and the spec's `height*width` (so decoding succeeds). -/
abbrev BodiesMatch (bodies : List (List Nat)) (specs : List ROISpec) : Prop :=
  List.Forall₂
    (fun b s => (b.length : Int) = s.num_bytes ∧ (b.length : Int) = s.height * s.width)
    bodies specs

/-- The `ROIRequest` built from a spec and its decoded pixel buffer
(server.py lines 120-127). -/
def mkROIRequest (s : ROISpec) (b : List Nat) : ROIRequest :=
  ⟨s.id, b, s.min_radius_px, s.max_radius_px⟩

/-- When every body frame matches its spec, the body-reading loop decodes all
of them, pairing spec `i` with blob `i`, and consumes exactly those events. -/
theorem readBodies_ok (bodies : List (List Nat)) (specs : List ROISpec) (rest : List InEvent)
    (hb : BodiesMatch bodies specs) :
    readBodies specs (bodyFrames bodies ++ rest) =
      (Except.ok (List.zipWith mkROIRequest specs bodies), rest) := by
  induction hb with
  | nil => simp [readBodies, bodyFrames]
  | cons hbs _ ih =>
    obtain ⟨h1, h2⟩ := hbs
    simp only [bodyFrames, List.map_cons, List.cons_append, readBodies]
    rw [if_neg (not_not_intro h1), if_neg (not_not_intro h2)]
    simp [bodyFrames] at ih
    simp [consBody, ih, mkROIRequest]

/-- A fully valid exchange: header accepted, all body frames matching.  The
server answers `ok=true` with the in-order collected results and proceeds to
the next request.  The detection oracle `d` is arbitrary: the response's
shape does not depend on how or when the individual tasks complete. -/
theorem handle_client_ok_batch (d : DetectFn) (ms fuel : Nat) (raw : List Nat) (v : JValue)
    (req : DetectRequest) (bodies : List (List Nat)) (rest : List InEvent)
    (hv : DetectRequest.model_validate v = Except.ok req)
    (hb : BodiesMatch bodies req.roi_specs) :
    handle_client d ms (fuel + 1) (InEvent.frame raw (some v) :: (bodyFrames bodies ++ rest)) =
      ⟨true, (List.zipWith mkROIRequest req.roi_specs bodies).map (collectItem d req.params),
        some ms, none⟩ :: handle_client d ms fuel rest := by
  simp only [handle_client, hv, readBodies_ok bodies req.roi_specs rest hb]

/-- A spec accepted by validation has `max_radius_px > min_radius_px > 0`
(pydantic `gt=0` on `min_radius_px` and the `_radii_ok` field validator). -/
theorem ROISpec.validate_ok_radii (j : JValue) (s : ROISpec)
    (h : ROISpec.model_validate j = Except.ok s) :
    0 < s.min_radius_px ∧ s.min_radius_px < s.max_radius_px := by
  cases j with
  | obj fs =>
    simp only [ROISpec.model_validate] at h
    obtain ⟨id, hid, h⟩ := bind_eq_ok h
    obtain ⟨ht, hht, h⟩ := bind_eq_ok h
    split at h
    · cases h
    obtain ⟨w, hw, h⟩ := bind_eq_ok h
    split at h
    · cases h
    obtain ⟨nb, hnb, h⟩ := bind_eq_ok h
    split at h
    · cases h
    obtain ⟨mn, hmn, h⟩ := bind_eq_ok h
    split at h
    · cases h
    obtain ⟨mx, hmx, h⟩ := bind_eq_ok h
    split at h
    · cases h
    split at h
    · cases h
    cases h
    exact ⟨show 0 < mn by omega, show mn < mx by omega⟩
  | null => cases h
  | bool b => cases h
  | int n => cases h
  | str t => cases h
  | arr xs => cases h

/-- Validation of a spec list preserves its length. -/
theorem ROISpec.validateList_length (l : List JValue) (specs : List ROISpec)
    (h : ROISpec.validateList l = Except.ok specs) : specs.length = l.length := by
  induction l generalizing specs with
  | nil => cases h; rfl
  | cons j js ih =>
    simp only [ROISpec.validateList] at h
    obtain ⟨s, hs, h⟩ := bind_eq_ok h
    obtain ⟨ss, hss, h⟩ := bind_eq_ok h
    cases h
    simp [ih ss hss]

/-- An accepted request has a non-empty spec list (`min_length=1`). -/
theorem DetectRequest.validate_ok_ne_nil (j : JValue) (req : DetectRequest)
    (h : DetectRequest.model_validate j = Except.ok req) : req.roi_specs ≠ [] := by
  cases j with
  | obj fs =>
    simp only [DetectRequest.model_validate] at h
    obtain ⟨u, hu, h⟩ := bind_eq_ok h
    obtain ⟨pj, hpj, h⟩ := bind_eq_ok h
    obtain ⟨params, hparams, h⟩ := bind_eq_ok h
    obtain ⟨rj, hrj, h⟩ := bind_eq_ok h
    obtain ⟨items, hitems, h⟩ := bind_eq_ok h
    split at h
    · cases h
    · rename_i hemp
      obtain ⟨specs, hspecs, h⟩ := bind_eq_ok h
      cases h
      have hlen := ROISpec.validateList_length items specs hspecs
      intro hnil
      have hs2 : specs = [] := hnil
      subst hs2
      simp only [List.length_nil] at hlen
      simp only [List.isEmpty_iff] at hemp
      exact hemp (List.length_eq_zero.mp hlen.symm)
  | null => cases h
  | bool b => cases h
  | int n => cases h
  | str t => cases h
  | arr xs => cases h

/-- A dumped spec with `max_radius_px <= min_radius_px` never re-validates:
either an earlier field constraint fails, or the `_radii_ok` validator
rejects it. -/
theorem ROISpec.dump_reject_radii (s : ROISpec) (hle : s.max_radius_px ≤ s.min_radius_px)
    (t : ROISpec) : ROISpec.model_validate s.model_dump ≠ Except.ok t := by
  intro h
  simp [ROISpec.model_validate, ROISpec.model_dump, getStr, getInt, strOf, intOf, getField,
    bind_ok] at h
  split at h
  · cases h
  split at h
  · cases h
  split at h
  · cases h
  split at h
  · cases h
  split at h
  · cases h
  cases h

/-- Header validation failure: one `Bad request` response, the batch's events
untouched, loop continues (server.py lines 99-104). -/
theorem handle_client_bad_request (d : DetectFn) (ms fuel : Nat) (raw : List Nat) (v : JValue)
    (e : String) (evs : List InEvent)
    (hv : DetectRequest.model_validate v = Except.error e) :
    handle_client d ms (fuel + 1) (InEvent.frame raw (some v) :: evs) =
      ⟨false, [], none, some ("Bad request: " ++ e)⟩ :: handle_client d ms fuel evs := by
  simp only [handle_client, hv]

/-- Body decoding failure: one `ROI decode failed` response, loop continues on
the events left unconsumed by the body-reading loop (server.py lines 128-131). -/
theorem handle_client_decode_fail (d : DetectFn) (ms fuel : Nat) (raw : List Nat) (v : JValue)
    (req : DetectRequest) (e : String) (evs rest : List InEvent)
    (hv : DetectRequest.model_validate v = Except.ok req)
    (hr : readBodies req.roi_specs evs = (Except.error e, rest)) :
    handle_client d ms (fuel + 1) (InEvent.frame raw (some v) :: evs) =
      ⟨false, [], none, some ("ROI decode failed: " ++ e)⟩ :: handle_client d ms fuel rest := by
  simp only [handle_client, hv, hr]

/-- Collection preserves the item's id whether the task succeeded or raised. -/
theorem collectItem_id (d : DetectFn) (params : DetectParams) (r : ROIRequest) :
    (collectItem d params r).id = r.id := by
  unfold collectItem
  split <;> rfl

/-- The collected result list carries the specs' ids position by position. -/
theorem results_getElem_id (d : DetectFn) (params : DetectParams) :
    ∀ (specs : List ROISpec) (bodies : List (List Nat)), bodies.length = specs.length →
      ∀ i : Nat,
        (((List.zipWith mkROIRequest specs bodies).map (collectItem d params))[i]?).map
            ROIResult.id =
          (specs[i]?).map ROISpec.id := by
  intro specs
  induction specs with
  | nil => intro bodies _ i; simp
  | cons sp sps ih =>
    intro bodies hlen i
    cases bodies with
    | nil => simp at hlen
    | cons bd bds =>
      simp only [List.length_cons] at hlen
      cases i with
      | zero => simp [collectItem_id, mkROIRequest]
      | succ n =>
        simp only [List.zipWith_cons_cons, List.map_cons, List.getElem?_cons_succ]
        exact ih bds (by omega) n

/-- Position `i` of the collected result list is the collection of spec `i`
with blob `i`. -/
theorem results_getElem (d : DetectFn) (params : DetectParams) :
    ∀ (specs : List ROISpec) (bodies : List (List Nat)) (i : Nat) (s : ROISpec) (b : List Nat),
      specs[i]? = some s → bodies[i]? = some b →
      ((List.zipWith mkROIRequest specs bodies).map (collectItem d params))[i]? =
        some (collectItem d params (mkROIRequest s b)) := by
  intro specs
  induction specs with
  | nil => intro bodies i s b hs; simp at hs
  | cons sp sps ih =>
    intro bodies i s b hs hb
    cases bodies with
    | nil => simp at hb
    | cons bd bds =>
      cases i with
      | zero =>
        simp only [List.getElem?_cons_zero, Option.some.injEq] at hs hb
        subst hs; subst hb
        simp
      | succ n =>
        simp only [List.getElem?_cons_succ] at hs hb
        simp only [List.zipWith_cons_cons, List.map_cons, List.getElem?_cons_succ]
        exact ih bds n s b hs hb

/-- A first body frame whose length differs from the spec's `num_bytes` makes
the body-reading loop raise the bytes-mismatch `ValueError`, leaving the
following events unconsumed. -/
theorem readBodies_first_mismatch (s : ROISpec) (ss : List ROISpec) (b : List Nat)
    (p : Option JValue) (evs : List InEvent) (hlen : (b.length : Int) ≠ s.num_bytes) :
    readBodies (s :: ss) (InEvent.frame b p :: evs) =
      (Except.error ("ROI bytes mismatch for roi_id=" ++ s.id ++ ": expected " ++
        toString s.num_bytes ++ ", got " ++ toString b.length), evs) := by
  simp only [readBodies]
  rw [if_pos hlen]

/-- A first body frame matching `num_bytes` but not `height*width` makes the
body-reading loop raise the size-mismatch `ValueError` — after the frame has
been read. -/
theorem readBodies_first_size_mismatch (s : ROISpec) (ss : List ROISpec) (b : List Nat)
    (p : Option JValue) (evs : List InEvent) (hlen : (b.length : Int) = s.num_bytes)
    (hsz : s.num_bytes ≠ s.height * s.width) :
    readBodies (s :: ss) (InEvent.frame b p :: evs) =
      (Except.error ("ROI size mismatch for roi_id=" ++ s.id ++ ": " ++
        toString b.length ++ " != " ++ toString (s.height * s.width)), evs) := by
  simp only [readBodies]
  rw [if_neg (not_not_intro hlen), if_pos (by omega : (b.length : Int) ≠ s.height * s.width)]

/-- A timeout while the body-reading loop waits for its next frame raises
`socket.timeout`, which the decode handler treats like any other exception. -/
theorem readBodies_first_timeout (s : ROISpec) (ss : List ROISpec) (evs : List InEvent) :
    readBodies (s :: ss) (InEvent.timeout :: evs) =
      (Except.error "TimeoutError: timed out", evs) := rfl

/-! ## Claims -/

/-- C1: for every batch request that passes header validation and body
decoding (N ROI specs), the server's response contains exactly N results and
`results[i].id = roi_specs[i].id` for every i.  The detection oracle `d` is
universally quantified and the collection walks the batch in submission
order, so the conclusion holds independently of the order in which the
underlying detection tasks complete. -/
theorem C1_batch_results_match_request_order (d : DetectFn) (ms fuel : Nat) (raw : List Nat)
    (v : JValue) (req : DetectRequest) (bodies : List (List Nat)) (rest : List InEvent)
    (hv : DetectRequest.model_validate v = Except.ok req)
    (hb : BodiesMatch bodies req.roi_specs) :
    ∃ results : List ROIResult,
      handle_client d ms (fuel + 1)
          (InEvent.frame raw (some v) :: (bodyFrames bodies ++ rest)) =
        ⟨true, results, some ms, none⟩ :: handle_client d ms fuel rest ∧
      results.length = req.roi_specs.length ∧
      ∀ i : Nat, (results[i]?).map ROIResult.id = (req.roi_specs[i]?).map ROISpec.id := by
  have hlen : bodies.length = req.roi_specs.length := hb.length_eq
  refine ⟨_, handle_client_ok_batch d ms fuel raw v req bodies rest hv hb, ?_, ?_⟩
  · simp only [List.length_map, List.length_zipWith]
    omega
  · exact results_getElem_id d req.params req.roi_specs bodies hlen

/-- Witness for C1: a concrete one-item batch. -/
theorem C1_witness :
    ∃ results : List ROIResult,
      handle_client sampleDetect 5 (0 + 1)
          (InEvent.frame [] (some sampleRequest.model_dump) :: (bodyFrames [[1, 2, 3, 4]] ++ [])) =
        ⟨true, results, some 5, none⟩ :: handle_client sampleDetect 5 0 [] ∧
      results.length = sampleRequest.roi_specs.length ∧
      ∀ i : Nat,
        (results[i]?).map ROIResult.id = (sampleRequest.roi_specs[i]?).map ROISpec.id :=
  C1_batch_results_match_request_order sampleDetect 5 0 [] sampleRequest.model_dump
    sampleRequest [[1, 2, 3, 4]] [] rfl
    (List.Forall₂.cons ⟨by decide, by decide⟩ List.Forall₂.nil)

/-- C2: for every decoded batch the response reports `ok=true` whatever the
detection tasks do; an item whose task raises gets `⟨id, no circle, the
exception text⟩`, an item whose task returns gets `⟨id, its shape-or-none,
no error⟩`, and every item sits at its request position. -/
theorem C2_per_item_fault_isolation (d : DetectFn) (ms fuel : Nat) (raw : List Nat)
    (v : JValue) (req : DetectRequest) (bodies : List (List Nat)) (rest : List InEvent)
    (hv : DetectRequest.model_validate v = Except.ok req)
    (hb : BodiesMatch bodies req.roi_specs) :
    ∃ results : List ROIResult,
      handle_client d ms (fuel + 1)
          (InEvent.frame raw (some v) :: (bodyFrames bodies ++ rest)) =
        ⟨true, results, some ms, none⟩ :: handle_client d ms fuel rest ∧
      results.length = req.roi_specs.length ∧
      ∀ (i : Nat) (s : ROISpec) (b : List Nat),
        req.roi_specs[i]? = some s → bodies[i]? = some b →
        (∀ e : String,
          d b s.min_radius_px s.max_radius_px req.params.canny_low req.params.canny_high =
              Except.error e →
            results[i]? = some ⟨s.id, none, some e⟩) ∧
        (∀ c : Option Circle,
          d b s.min_radius_px s.max_radius_px req.params.canny_low req.params.canny_high =
              Except.ok c →
            results[i]? = some ⟨s.id, c, none⟩) := by
  have hlen : bodies.length = req.roi_specs.length := hb.length_eq
  refine ⟨_, handle_client_ok_batch d ms fuel raw v req bodies rest hv hb, ?_, ?_⟩
  · simp only [List.length_map, List.length_zipWith]
    omega
  · intro i s b hs hbi
    have hres := results_getElem d req.params req.roi_specs bodies i s b hs hbi
    constructor
    · intro e hd
      rw [hres]
      simp [collectItem, mkROIRequest, hd]
    · intro c hd
      rw [hres]
      simp [collectItem, mkROIRequest, hd]

/-- Witness for C2: a concrete one-item batch whose task raises. -/
theorem C2_witness :
    ∃ results : List ROIResult,
      handle_client sampleDetectErr 5 (0 + 1)
          (InEvent.frame [] (some sampleRequest.model_dump) :: (bodyFrames [[1, 2, 3, 4]] ++ [])) =
        ⟨true, results, some 5, none⟩ :: handle_client sampleDetectErr 5 0 [] ∧
      results.length = sampleRequest.roi_specs.length ∧
      ∀ (i : Nat) (s : ROISpec) (b : List Nat),
        sampleRequest.roi_specs[i]? = some s → [[1, 2, 3, 4]][i]? = some b →
        (∀ e : String,
          sampleDetectErr b s.min_radius_px s.max_radius_px sampleRequest.params.canny_low
              sampleRequest.params.canny_high = Except.error e →
            results[i]? = some ⟨s.id, none, some e⟩) ∧
        (∀ c : Option Circle,
          sampleDetectErr b s.min_radius_px s.max_radius_px sampleRequest.params.canny_low
              sampleRequest.params.canny_high = Except.ok c →
            results[i]? = some ⟨s.id, c, none⟩) :=
  C2_per_item_fault_isolation sampleDetectErr 5 0 [] sampleRequest.model_dump
    sampleRequest [[1, 2, 3, 4]] [] rfl
    (List.Forall₂.cons ⟨by decide, by decide⟩ List.Forall₂.nil)

/-- C3: a header frame that fails schema validation (malformed header, empty
`roi_specs`, or a violated spec invariant — any input on which
`DetectRequest.model_validate` errors) gets an immediate response with
`ok=false`, a non-null diagnostic and empty results; none of the following
events is consumed, and the loop continues with them, so the connection
remains usable for the next request. -/
theorem C3_validation_failure_immediate_response (d : DetectFn) (ms fuel : Nat)
    (raw : List Nat) (v : JValue) (e : String) (evs : List InEvent)
    (hv : DetectRequest.model_validate v = Except.error e) :
    handle_client d ms (fuel + 1) (InEvent.frame raw (some v) :: evs) =
      ⟨false, [], none, some ("Bad request: " ++ e)⟩ :: handle_client d ms fuel evs :=
  handle_client_bad_request d ms fuel raw v e evs hv

/-- Witness for C3: a header with an empty `roi_specs` list, followed by a
complete valid request that the connection still serves. -/
theorem C3_witness :
    DetectRequest.model_validate emptySpecsHeader =
      Except.error "roi_specs: List should have at least 1 item" ∧
    handle_client sampleDetect 5 (1 + 1)
        (InEvent.frame [] (some emptySpecsHeader) ::
          [InEvent.frame [] (some sampleRequest.model_dump), InEvent.frame [1, 2, 3, 4] none]) =
      ⟨false, [], none, some ("Bad request: " ++ "roi_specs: List should have at least 1 item")⟩ ::
        handle_client sampleDetect 5 1
          [InEvent.frame [] (some sampleRequest.model_dump), InEvent.frame [1, 2, 3, 4] none] :=
  ⟨rfl,
   C3_validation_failure_immediate_response sampleDetect 5 1 [] emptySpecsHeader
     "roi_specs: List should have at least 1 item"
     [InEvent.frame [] (some sampleRequest.model_dump), InEvent.frame [1, 2, 3, 4] none] rfl⟩

/-- C4 counterexample: after a body frame shorter than its declared length the
server sends the decode-mismatch failure and then serves a further request on
the same connection — the connection is not closed afterwards, contradicting
the claim. -/
theorem C4_counterexample :
    handle_client sampleDetect 7 2
        [InEvent.frame [] (some sampleRequest.model_dump), InEvent.frame [9, 9, 9] none,
         InEvent.frame [] (some sampleRequest.model_dump), InEvent.frame [1, 2, 3, 4] none] =
      [⟨false, [], none,
         some "ROI decode failed: ROI bytes mismatch for roi_id=a: expected 4, got 3"⟩,
       ⟨true, [⟨"a", none, none⟩], some 7, none⟩] := rfl

/-- C4 (amended): for every accepted header followed by a body frame whose
length differs from that spec's declared `num_bytes`, the server sends a
response with `ok=false` and a decode-mismatch diagnostic, and afterwards
keeps the connection open, continuing the request loop (it does not close
the connection). -/
theorem C4_amended_decode_mismatch_keeps_connection (d : DetectFn) (ms fuel : Nat)
    (raw : List Nat) (v : JValue) (req : DetectRequest) (s : ROISpec) (ss : List ROISpec)
    (b : List Nat) (p : Option JValue) (evs : List InEvent)
    (hv : DetectRequest.model_validate v = Except.ok req)
    (hspec : req.roi_specs = s :: ss)
    (hlen : (b.length : Int) ≠ s.num_bytes) :
    ∃ e : String,
      handle_client d ms (fuel + 1)
          (InEvent.frame raw (some v) :: InEvent.frame b p :: evs) =
        ⟨false, [], none, some ("ROI decode failed: " ++ e)⟩ ::
          handle_client d ms fuel evs := by
  have hr : readBodies req.roi_specs (InEvent.frame b p :: evs) =
      (Except.error ("ROI bytes mismatch for roi_id=" ++ s.id ++ ": expected " ++
        toString s.num_bytes ++ ", got " ++ toString b.length), evs) := by
    rw [hspec]
    exact readBodies_first_mismatch s ss b p evs hlen
  exact ⟨_, handle_client_decode_fail d ms fuel raw v req _
    (InEvent.frame b p :: evs) evs hv hr⟩

/-- Witness for C4's amended claim: the concrete trace of `C4_counterexample`'s
first exchange. -/
theorem C4_witness :
    ∃ e : String,
      handle_client sampleDetect 7 (1 + 1)
          (InEvent.frame [] (some sampleRequest.model_dump) :: InEvent.frame [9, 9, 9] none ::
            [InEvent.frame [] (some sampleRequest.model_dump),
             InEvent.frame [1, 2, 3, 4] none]) =
        ⟨false, [], none, some ("ROI decode failed: " ++ e)⟩ ::
          handle_client sampleDetect 7 1
            [InEvent.frame [] (some sampleRequest.model_dump),
             InEvent.frame [1, 2, 3, 4] none] :=
  C4_amended_decode_mismatch_keeps_connection sampleDetect 7 1 []
    sampleRequest.model_dump sampleRequest sampleSpec [] [9, 9, 9] none
    [InEvent.frame [] (some sampleRequest.model_dump), InEvent.frame [1, 2, 3, 4] none]
    rfl rfl (by decide)

/-- C5 counterexample: a header whose only spec declares `num_bytes = 3` while
`height*width = 4` is accepted by header validation, and the batch fails only
at the body-decode stage, after the binary frame has been read — contradicting
the claim that validation rejects it before any frame is read. -/
theorem C5_counterexample :
    DetectRequest.model_validate sampleRequestMismatch.model_dump =
      Except.ok sampleRequestMismatch ∧
    handle_client sampleDetect 7 2
        [InEvent.frame [] (some sampleRequestMismatch.model_dump),
         InEvent.frame [5, 5, 5] none] =
      [⟨false, [], none,
         some "ROI decode failed: ROI size mismatch for roi_id=a: 3 != 4"⟩] :=
  ⟨rfl, rfl⟩

/-- C5 (amended): header validation does not compare `num_bytes` with
`height*width`; a request whose spec satisfies the per-field constraints is
accepted even when `num_bytes ≠ height*width`, and the mismatch is caught at
the body-decode stage, after that spec's binary frame has been read, with an
`ok=false` decode-failure response. -/
theorem C5_amended_size_mismatch_caught_at_decode (d : DetectFn) (ms fuel : Nat)
    (raw : List Nat) (p : DetectParams) (s : ROISpec) (b : List Nat) (pj : Option JValue)
    (evs : List InEvent)
    (hp : p.validB = true) (hs : s.validB = true)
    (hb : (b.length : Int) = s.num_bytes) (hmm : s.num_bytes ≠ s.height * s.width) :
    DetectRequest.model_validate (DetectRequest.model_dump ⟨p, [s]⟩) = Except.ok ⟨p, [s]⟩ ∧
    ∃ e : String,
      handle_client d ms (fuel + 1)
          (InEvent.frame raw (some (DetectRequest.model_dump ⟨p, [s]⟩)) ::
            InEvent.frame b pj :: evs) =
        ⟨false, [], none, some ("ROI decode failed: " ++ e)⟩ ::
          handle_client d ms fuel evs := by
  have hv : DetectRequest.model_validate (DetectRequest.model_dump ⟨p, [s]⟩) =
      Except.ok ⟨p, [s]⟩ := by
    apply DetectRequest.validate_dump_request
    simp [DetectRequest.validB, hp, hs]
  have hr : readBodies (DetectRequest.roi_specs ⟨p, [s]⟩) (InEvent.frame b pj :: evs) =
      (Except.error ("ROI size mismatch for roi_id=" ++ s.id ++ ": " ++
        toString b.length ++ " != " ++ toString (s.height * s.width)), evs) :=
    readBodies_first_size_mismatch s [] b pj evs hb hmm
  exact ⟨hv, _, handle_client_decode_fail d ms fuel raw _ _ _
    (InEvent.frame b pj :: evs) evs hv hr⟩

/-- Witness for C5's amended claim: the concrete mismatching spec. -/
theorem C5_witness :
    DetectRequest.model_validate (DetectRequest.model_dump ⟨sampleParams, [sampleSpecMismatch]⟩) =
      Except.ok ⟨sampleParams, [sampleSpecMismatch]⟩ ∧
    ∃ e : String,
      handle_client sampleDetect 7 (0 + 1)
          (InEvent.frame [] (some (DetectRequest.model_dump ⟨sampleParams, [sampleSpecMismatch]⟩)) ::
            InEvent.frame [5, 5, 5] none :: []) =
        ⟨false, [], none, some ("ROI decode failed: " ++ e)⟩ ::
          handle_client sampleDetect 7 0 [] :=
  C5_amended_size_mismatch_caught_at_decode sampleDetect 7 0 [] sampleParams
    sampleSpecMismatch [5, 5, 5] none [] rfl rfl (by decide) (by decide)

/-- C6: a spec accepted by validation always has `max_radius_px >
min_radius_px > 0`; and any spec with `max_radius_px <= min_radius_px`
(including `min = max` and `max < min`) is never accepted when its header
encoding is validated. -/
theorem C6_radii_validation :
    (∀ (j : JValue) (s : ROISpec), ROISpec.model_validate j = Except.ok s →
        0 < s.min_radius_px ∧ s.min_radius_px < s.max_radius_px) ∧
    (∀ s : ROISpec, s.max_radius_px ≤ s.min_radius_px →
        ∀ t : ROISpec, ROISpec.model_validate s.model_dump ≠ Except.ok t) :=
  ⟨ROISpec.validate_ok_radii, ROISpec.dump_reject_radii⟩

/-- Witness for C6: the accepted sample spec has `0 < 1 < 5`; a spec with
`min_radius_px = max_radius_px = 3` is rejected. -/
theorem C6_witness :
    (0 < sampleSpec.min_radius_px ∧ sampleSpec.min_radius_px < sampleSpec.max_radius_px) ∧
    ROISpec.model_validate (ROISpec.model_dump ⟨"a", 2, 2, 4, 3, 3⟩) ≠
      Except.ok (⟨"a", 2, 2, 4, 3, 3⟩ : ROISpec) :=
  ⟨C6_radii_validation.1 sampleSpec.model_dump sampleSpec rfl,
   C6_radii_validation.2 ⟨"a", 2, 2, 4, 3, 3⟩ (by decide) ⟨"a", 2, 2, 4, 3, 3⟩⟩

/-- C7: serializing a valid request header and validating it again yields an
equal structure (all fields, including radius bounds and byte counts), and
the length-prefixed framing returns a sent payload unchanged, leaving the
stream positioned after the frame. -/
theorem C7_encode_decode_roundtrip (r : DetectRequest) (payload rest : List Nat)
    (hr : r.validB = true) (hlen : payload.length < 2 ^ 64) :
    DetectRequest.model_validate (DetectRequest.model_dump r) = Except.ok r ∧
    recv_msg (send_msg payload ++ rest) = some (payload, rest) :=
  ⟨DetectRequest.validate_dump_request r hr, recv_msg_send_msg payload rest hlen⟩

/-- Witness for C7: the sample request and a 3-byte payload. -/
theorem C7_witness :
    DetectRequest.model_validate (DetectRequest.model_dump sampleRequest) =
      Except.ok sampleRequest ∧
    recv_msg (send_msg [1, 2, 3] ++ [7, 7]) = some ([1, 2, 3], [7, 7]) :=
  C7_encode_decode_roundtrip sampleRequest [1, 2, 3] [7, 7] rfl (by norm_num)

/-- C8: the detection capability returns a shape exactly when the Hough peak
extraction produced one candidate, returns that unique candidate's circle,
and returns `none` for zero or several candidates — it never guesses among
several and never raises.  The external Canny/Hough library calls are
modelled by their outputs (the four peak arrays, zipped by the wrapper with
`strict=False`); the wrapper itself is a total function on them. -/
theorem C8_detection_unique_candidate (accums cxs cys radii : List Int) :
    ((detect_one_circle_scikit accums cxs cys radii).isSome = true ↔
      (zip4 accums cxs cys radii).length = 1) ∧
    ((zip4 accums cxs cys radii).length ≠ 1 →
      detect_one_circle_scikit accums cxs cys radii = none) ∧
    (∀ a x y r : Int, zip4 accums cxs cys radii = [(a, x, y, r)] →
      detect_one_circle_scikit accums cxs cys radii = some ⟨x, y, r⟩) := by
  cases hz : zip4 accums cxs cys radii with
  | nil =>
    refine ⟨?_, ?_, ?_⟩
    · simp [detect_one_circle_scikit, hz]
    · intro _; simp [detect_one_circle_scikit, hz]
    · intro a x y r hcontra; simp at hcontra
  | cons p t =>
    cases t with
    | nil =>
      refine ⟨?_, ?_, ?_⟩
      · simp [detect_one_circle_scikit, hz]
      · intro hne; simp at hne
      · intro a x y r heq
        cases heq
        simp [detect_one_circle_scikit, hz]
    | cons q t2 =>
      refine ⟨?_, ?_, ?_⟩
      · simp [detect_one_circle_scikit, hz]
      · intro _; simp [detect_one_circle_scikit, hz]
      · intro a x y r heq; simp at heq

/-- Witness for C8: one peak at (30, 31) with radius 10 yields exactly that
circle. -/
theorem C8_witness :
    detect_one_circle_scikit [200] [30] [31] [10] = some ⟨30, 31, 10⟩ :=
  (C8_detection_unique_candidate [200] [30] [31] [10]).2.2 200 30 31 10 rfl

/-- C9 counterexample: when the idle-read timeout expires while the server
waits for a body frame (between the header and the first binary frame), the
server does not drop the connection silently — it sends a protocol-level
`ok=false` decode-failure response, contradicting the claim for that
protocol phase. -/
theorem C9_counterexample :
    handle_client sampleDetect 7 2
        [InEvent.frame [] (some sampleRequest.model_dump), InEvent.timeout] =
      [⟨false, [], none, some "ROI decode failed: TimeoutError: timed out"⟩] := rfl

/-- C9 (amended): the idle-read timeout's effect depends on the protocol
phase.  A timeout while waiting for a header frame drops the connection
silently (no response); a timeout while waiting for a body frame is caught
by the body-decode handler, which sends an `ok=false` decode-failure
response and keeps the connection open. -/
theorem C9_amended_timeout_phase_dependent (d : DetectFn) (ms fuel : Nat) (raw : List Nat)
    (v : JValue) (req : DetectRequest) (evs : List InEvent) :
    handle_client d ms (fuel + 1) (InEvent.timeout :: evs) = [] ∧
    (DetectRequest.model_validate v = Except.ok req →
      handle_client d ms (fuel + 1) (InEvent.frame raw (some v) :: InEvent.timeout :: evs) =
        ⟨false, [], none, some ("ROI decode failed: " ++ "TimeoutError: timed out")⟩ ::
          handle_client d ms fuel evs) := by
  refine ⟨rfl, fun hv => ?_⟩
  have hne := DetectRequest.validate_ok_ne_nil v req hv
  rcases hspec : req.roi_specs with _ | ⟨s, ss⟩
  · exact absurd hspec hne
  · apply handle_client_decode_fail d ms fuel raw v req _ _ evs hv
    rw [hspec]
    exact readBodies_first_timeout s ss evs

/-- Witness for C9's amended claim: the sample header followed by a timeout. -/
theorem C9_witness :
    handle_client sampleDetect 3 (0 + 1) (InEvent.timeout :: []) = [] ∧
    handle_client sampleDetect 3 (0 + 1)
        (InEvent.frame [] (some sampleRequest.model_dump) :: InEvent.timeout :: []) =
      ⟨false, [], none, some ("ROI decode failed: " ++ "TimeoutError: timed out")⟩ ::
        handle_client sampleDetect 3 0 [] :=
  ⟨(C9_amended_timeout_phase_dependent sampleDetect 3 0 [] sampleRequest.model_dump
      sampleRequest []).1,
   (C9_amended_timeout_phase_dependent sampleDetect 3 0 [] sampleRequest.model_dump
      sampleRequest []).2 rfl⟩

/-- C10: every response `handle_client` ever writes satisfies the response
invariant: an `ok=false` response has empty results, `ms=None` and a non-null
error; an `ok=true` response has a non-null `ms` and a null top-level error. -/
theorem C10_response_invariant (d : DetectFn) (ms : Nat) :
    ∀ (fuel : Nat) (events : List InEvent) (r : DetectResponse),
      r ∈ handle_client d ms fuel events →
      (r.ok = false → r.results = [] ∧ r.ms = none ∧ r.error.isSome = true) ∧
      (r.ok = true → r.ms.isSome = true ∧ r.error = none) := by
  intro fuel
  induction fuel with
  | zero => intro events r hr; simp [handle_client] at hr
  | succ n ih =>
    intro events r hr
    cases events with
    | nil => simp [handle_client] at hr
    | cons ev evs =>
      cases ev with
      | timeout => simp [handle_client] at hr
      | frame raw parsed =>
        cases parsed with
        | none => simp [handle_client] at hr
        | some v =>
          cases hval : DetectRequest.model_validate v with
          | error e =>
            rw [handle_client_bad_request d ms n raw v e evs hval] at hr
            rcases List.mem_cons.mp hr with h | h
            · subst h
              refine ⟨fun _ => ⟨rfl, rfl, rfl⟩, fun hok => ?_⟩
              simp at hok
            · exact ih evs r h
          | ok req =>
            rcases hrb : readBodies req.roi_specs evs with ⟨res, rest⟩
            cases res with
            | error e =>
              rw [handle_client_decode_fail d ms n raw v req e evs rest hval hrb] at hr
              rcases List.mem_cons.mp hr with h | h
              · subst h
                refine ⟨fun _ => ⟨rfl, rfl, rfl⟩, fun hok => ?_⟩
                simp at hok
              · exact ih rest r h
            | ok rois =>
              have hstep : handle_client d ms (n + 1) (InEvent.frame raw (some v) :: evs) =
                  ⟨true, rois.map (collectItem d req.params), some ms, none⟩ ::
                    handle_client d ms n rest := by
                simp only [handle_client, hval, hrb]
              rw [hstep] at hr
              rcases List.mem_cons.mp hr with h | h
              · subst h
                refine ⟨fun hok => ?_, fun _ => ⟨rfl, rfl⟩⟩
                simp at hok
              · exact ih rest r h

/-- Witness for C10: the bad-request response to an empty header object. -/
theorem C10_witness :
    ((⟨false, [], none, some "Bad request: params: Field required"⟩ : DetectResponse).ok =
        false →
      (⟨false, [], none, some "Bad request: params: Field required"⟩ : DetectResponse).results =
          [] ∧
        (⟨false, [], none,
            some "Bad request: params: Field required"⟩ : DetectResponse).ms = none ∧
        (⟨false, [], none,
            some "Bad request: params: Field required"⟩ : DetectResponse).error.isSome = true) ∧
    ((⟨false, [], none, some "Bad request: params: Field required"⟩ : DetectResponse).ok =
        true →
      (⟨false, [], none,
          some "Bad request: params: Field required"⟩ : DetectResponse).ms.isSome = true ∧
        (⟨false, [], none,
            some "Bad request: params: Field required"⟩ : DetectResponse).error = none) :=
  C10_response_invariant sampleDetect 0 1 [InEvent.frame [] (some (JValue.obj []))]
    ⟨false, [], none, some "Bad request: params: Field required"⟩ (by decide)

end hough_server
